import Mathlib

/-!
Shallow embedding of the tatutanatata client (Rust) for specification checking.

Source files embedded:
- `src/crypto/auth.rs`: `derive_passkey`, `encode_auth_verifier` (KDF and auth verifier),
- `src/client.rs`: `Client::stream` (cursor-based pagination over `futures::stream::try_unfold`),
- `src/session.rs`: `Session::login`, `Session::logout`, `session_element_id`, `session_list_id`.

External library functions the code calls (`sha2::Sha256`, the `bcrypt`/`blowfish` crates,
URL-safe base64 encoding, `futures::stream::try_unfold`) are embedded by their standard
definitions (FIPS 180-4 SHA-256, classical Blowfish/bcrypt with the pi-digit tables,
RFC 4648 URL-safe alphabet without padding, and the documented try-unfold semantics:
`Ok(Some(item, state))` yields an item, `Ok(None)` ends the stream, `Err(e)` yields the
error once and the stream is terminal afterwards).

Machine integers are represented as `Nat` with explicit reduction `% 2^32` where the Rust
code computes on `u32`; byte strings are `List Nat` with entries below 256.
-/

namespace Tatutanatata

/-- Error taxonomy of the spec, covering the `anyhow` error values the embedded code
produces: `invalidInput` (the `context("salt length")` failure of `derive_passkey`),
`notImplemented` (the `bail!("not implemented: ...")` paths) and `transport`
(failed HTTP fetches, e.g. `context("fetch next page")`). -/
inductive Err where
  | invalidInput (msg : String)
  | notImplemented (msg : String)
  | transport (msg : String)
deriving DecidableEq, Repr

/-- KDF scheme tag (`proto::enums::KdfVersion`, used in `src/crypto/auth.rs`):
`Bcrypt` is the spec's LegacyScheme, `Argon2id` the spec's ModernScheme. -/
inductive KdfVersion where
  | Bcrypt
  | Argon2id
deriving DecidableEq, Repr

/-- Symmetric key (`proto::keys::Key`, used in `src/crypto/auth.rs` as `Key::Aes128`). -/
inductive Key where
  | Aes128 (bytes : List Nat)
deriving DecidableEq, Repr

/-- Raw bytes of a key (the Rust code hashes `passkey.0` directly). -/
def Key.bytes : Key → List Nat
  | .Aes128 bs => bs

/-- Modelled from the spec: `proto::binary::Base64Url` (the `proto` module is not under
`src/`): a byte blob whose textual rendering is URL-safe base64 without padding
("Bearer credential is transmitted via a custom header carrying URL-safe base64 token
bytes"); `as_ref` on it yields the raw bytes. -/
structure Base64Url where
  bytes : List Nat
deriving DecidableEq, Repr

/-- UTF-8 encoding of one unicode scalar value (Rust `str::as_bytes` is UTF-8). -/
def utf8EncodeCharNat (n : Nat) : List Nat :=
  if n < 128 then [n]
  else if n < 2048 then [192 + n / 64, 128 + n % 64]
  else if n < 65536 then [224 + n / 4096, 128 + (n / 64) % 64, 128 + n % 64]
  else [240 + n / 262144, 128 + (n / 4096) % 64, 128 + (n / 64) % 64, 128 + n % 64]

/-- UTF-8 bytes of a string, as Rust's `str::as_bytes`. -/
def utf8Bytes (s : String) : List Nat :=
  s.toList.foldr (fun c acc => utf8EncodeCharNat c.toNat ++ acc) []

/-! ## SHA-256 (external `sha2::Sha256`, FIPS 180-4) -/

/-- Rotation of a 32-bit word to the right by n positions. -/
def rotr32 (n x : Nat) : Nat := (x >>> n) ||| ((x <<< (32 - n)) % 4294967296)

/-- Big-endian 32-bit words from a byte list (groups of 4). -/
def toWords32 : List Nat → List Nat
  | b0 :: b1 :: b2 :: b3 :: rest =>
      (((b0 * 256 + b1) * 256 + b2) * 256 + b3) :: toWords32 rest
  | _ => []

/-- Big-endian bytes of a 32-bit word. -/
def wordToBytes (w : Nat) : List Nat :=
  [w / 16777216 % 256, w / 65536 % 256, w / 256 % 256, w % 256]

/-- Big-endian 8-byte rendering of a length in bits. -/
def lengthBytes64 (n : Nat) : List Nat :=
  [n / 2 ^ 56 % 256, n / 2 ^ 48 % 256, n / 2 ^ 40 % 256, n / 2 ^ 32 % 256,
   n / 2 ^ 24 % 256, n / 2 ^ 16 % 256, n / 2 ^ 8 % 256, n % 256]

/-- SHA-256 padding: `0x80`, zeros to 56 mod 64, then the bit length big-endian. -/
def sha256pad (msg : List Nat) : List Nat :=
  msg ++ 128 :: List.replicate ((119 - msg.length % 64) % 64) 0 ++ lengthBytes64 (8 * msg.length)

/-- Working state of the SHA-256 compression function. -/
structure Hash8 where
  a : Nat
  b : Nat
  c : Nat
  d : Nat
  e : Nat
  f : Nat
  g : Nat
  h : Nat
deriving DecidableEq, Repr

/-- Appends the next message-schedule word (W[i] from W[i-16], W[i-15], W[i-7], W[i-2]). -/
def sha256extendStep (w : List Nat) : List Nat :=
  let i := w.length
  let w15 := w.getD (i - 15) 0
  let s0 := rotr32 7 w15 ^^^ rotr32 18 w15 ^^^ (w15 >>> 3)
  let w2 := w.getD (i - 2) 0
  let s1 := rotr32 17 w2 ^^^ rotr32 19 w2 ^^^ (w2 >>> 10)
  w ++ [(w.getD (i - 16) 0 + s0 + w.getD (i - 7) 0 + s1) % 4294967296]

/-- Full 64-word message schedule from the 16 block words. -/
def sha256schedule (w : List Nat) : List Nat :=
  Nat.repeat sha256extendStep 48 w

/-- One SHA-256 compression round, fed a pair of round constant and schedule word. -/
def sha256round (st : Hash8) (kw : Nat × Nat) : Hash8 :=
  let S1 := rotr32 6 st.e ^^^ rotr32 11 st.e ^^^ rotr32 25 st.e
  let ch := (st.e &&& st.f) ^^^ ((st.e ^^^ 4294967295) &&& st.g)
  let temp1 := (st.h + S1 + ch + kw.1 + kw.2) % 4294967296
  let S0 := rotr32 2 st.a ^^^ rotr32 13 st.a ^^^ rotr32 22 st.a
  let maj := (st.a &&& st.b) ^^^ (st.a &&& st.c) ^^^ (st.b &&& st.c)
  let temp2 := (S0 + maj) % 4294967296
  ⟨(temp1 + temp2) % 4294967296, st.a, st.b, st.c,
   (st.d + temp1) % 4294967296, st.e, st.f, st.g⟩

/-- Table of round constants (FIPS 180-4). -/
def sha256K : List Nat := [
  1116352408, 1899447441, 3049323471, 3921009573, 961987163, 1508970993, 2453635748, 2870763221,
  3624381080, 310598401, 607225278, 1426881987, 1925078388, 2162078206, 2614888103, 3248222580,
  3835390401, 4022224774, 264347078, 604807628, 770255983, 1249150122, 1555081692, 1996064986,
  2554220882, 2821834349, 2952996808, 3210313671, 3336571891, 3584528711, 113926993, 338241895,
  666307205, 773529912, 1294757372, 1396182291, 1695183700, 1986661051, 2177026350, 2456956037,
  2730485921, 2820302411, 3259730800, 3345764771, 3516065817, 3600352804, 4094571909, 275423344,
  430227734, 506948616, 659060556, 883997877, 958139571, 1322822218, 1537002063, 1747873779,
  1955562222, 2024104815, 2227730452, 2361852424, 2428436474, 2756734187, 3204031479, 3329325298
]

/-- Initial hash value (FIPS 180-4). -/
def sha256H0 : List Nat := [
  1779033703, 3144134277, 1013904242, 2773480762, 1359893119, 2600822924, 528734635, 1541459225
]

/-- Compression of one 64-byte block into the running hash state. -/
def sha256compress (st : Hash8) (block : List Nat) : Hash8 :=
  let w := sha256schedule (toWords32 block)
  let r := List.foldl sha256round st (sha256K.zip w)
  ⟨(st.a + r.a) % 4294967296, (st.b + r.b) % 4294967296,
   (st.c + r.c) % 4294967296, (st.d + r.d) % 4294967296,
   (st.e + r.e) % 4294967296, (st.f + r.f) % 4294967296,
   (st.g + r.g) % 4294967296, (st.h + r.h) % 4294967296⟩

/-- Feeds padded bytes into the compression function 64 bytes at a time
(`acc` is the partial block; padded input length is a multiple of 64). -/
def sha256absorb : Hash8 → List Nat → List Nat → Hash8
  | st, _, [] => st
  | st, acc, b :: rest =>
      if (acc ++ [b]).length = 64 then sha256absorb (sha256compress st (acc ++ [b])) [] rest
      else sha256absorb st (acc ++ [b]) rest

/-- SHA-256 digest (32 bytes) of a byte string. -/
def sha256 (msg : List Nat) : List Nat :=
  let f := sha256absorb ⟨0x6a09e667, 0xbb67ae85, 0x3c6ef372, 0xa54ff53a,
                         0x510e527f, 0x9b05688c, 0x1f83d9ab, 0x5be0cd19⟩ [] (sha256pad msg)
  wordToBytes f.a ++ wordToBytes f.b ++ wordToBytes f.c ++ wordToBytes f.d ++
  wordToBytes f.e ++ wordToBytes f.f ++ wordToBytes f.g ++ wordToBytes f.h

/-! ## URL-safe base64 without padding (rendering of `Base64Url`) -/

/-- URL-safe base64 alphabet (RFC 4648). -/
def base64UrlChars : List Char :=
  "ABCDEFGHIJKLMNOPQRSTUVWXYZabcdefghijklmnopqrstuvwxyz0123456789-_".toList

/-- Character for one 6-bit value. -/
def b64c (n : Nat) : Char := base64UrlChars.getD n 'A'

/-- URL-safe base64 without padding, three input bytes to four characters. -/
def base64UrlEncodeList : List Nat → List Char
  | b0 :: b1 :: b2 :: rest =>
      b64c (b0 / 4) :: b64c (b0 % 4 * 16 + b1 / 16) :: b64c (b1 % 16 * 4 + b2 / 64) ::
      b64c (b2 % 64) :: base64UrlEncodeList rest
  | [b0, b1] => [b64c (b0 / 4), b64c (b0 % 4 * 16 + b1 / 16), b64c (b1 % 16 * 4)]
  | [b0] => [b64c (b0 / 4), b64c (b0 % 4 * 16)]
  | [] => []

/-- Textual rendering of a `Base64Url` value (its Rust `Display`). -/
def Base64Url.render (b : Base64Url) : String :=
  String.mk (base64UrlEncodeList b.bytes)

/-! ## Blowfish / bcrypt (external `bcrypt` crate, called as `bcrypt::bcrypt(8, salt, digest)`)

The bcrypt cost is hard-wired to 8 by `derive_passkey`. These definitions follow the
`blowfish` crate's `bc_init_state`, `salted_expand_key`, `bc_expand_key` and `bc_encrypt`
and the `bcrypt` crate's raw `bcrypt` function. They are executable but far too expensive
to evaluate inside the kernel (cost 8 means 2^8 paired key expansions, about 267000
Blowfish encryptions); no theorem below evaluates them.
-/

/-- Initial P-array of Blowfish (hex digits of pi). -/
def blowfishP : List Nat := [
  608135816, 2242054355, 320440878, 57701188, 2752067618, 698298832, 137296536, 3964562569,
  1160258022, 953160567, 3193202383, 887688300, 3232508343, 3380367581, 1065670069, 3041331479,
  2450970073, 2306472731
]

/-- Initial first S-box of Blowfish (hex digits of pi). -/
def blowfishS0 : List Nat := [
  3509652390, 2564797868, 805139163, 3491422135, 3101798381, 1780907670, 3128725573, 4046225305,
  614570311, 3012652279, 134345442, 2240740374, 1667834072, 1901547113, 2757295779, 4103290238,
  227898511, 1921955416, 1904987480, 2182433518, 2069144605, 3260701109, 2620446009, 720527379,
  3318853667, 677414384, 3393288472, 3101374703, 2390351024, 1614419982, 1822297739, 2954791486,
  3608508353, 3174124327, 2024746970, 1432378464, 3864339955, 2857741204, 1464375394, 1676153920,
  1439316330, 715854006, 3033291828, 289532110, 2706671279, 2087905683, 3018724369, 1668267050,
  732546397, 1947742710, 3462151702, 2609353502, 2950085171, 1814351708, 2050118529, 680887927,
  999245976, 1800124847, 3300911131, 1713906067, 1641548236, 4213287313, 1216130144, 1575780402,
  4018429277, 3917837745, 3693486850, 3949271944, 596196993, 3549867205, 258830323, 2213823033,
  772490370, 2760122372, 1774776394, 2652871518, 566650946, 4142492826, 1728879713, 2882767088,
  1783734482, 3629395816, 2517608232, 2874225571, 1861159788, 326777828, 3124490320, 2130389656,
  2716951837, 967770486, 1724537150, 2185432712, 2364442137, 1164943284, 2105845187, 998989502,
  3765401048, 2244026483, 1075463327, 1455516326, 1322494562, 910128902, 469688178, 1117454909,
  936433444, 3490320968, 3675253459, 1240580251, 122909385, 2157517691, 634681816, 4142456567,
  3825094682, 3061402683, 2540495037, 79693498, 3249098678, 1084186820, 1583128258, 426386531,
  1761308591, 1047286709, 322548459, 995290223, 1845252383, 2603652396, 3431023940, 2942221577,
  3202600964, 3727903485, 1712269319, 422464435, 3234572375, 1170764815, 3523960633, 3117677531,
  1434042557, 442511882, 3600875718, 1076654713, 1738483198, 4213154764, 2393238008, 3677496056,
  1014306527, 4251020053, 793779912, 2902807211, 842905082, 4246964064, 1395751752, 1040244610,
  2656851899, 3396308128, 445077038, 3742853595, 3577915638, 679411651, 2892444358, 2354009459,
  1767581616, 3150600392, 3791627101, 3102740896, 284835224, 4246832056, 1258075500, 768725851,
  2589189241, 3069724005, 3532540348, 1274779536, 3789419226, 2764799539, 1660621633, 3471099624,
  4011903706, 913787905, 3497959166, 737222580, 2514213453, 2928710040, 3937242737, 1804850592,
  3499020752, 2949064160, 2386320175, 2390070455, 2415321851, 4061277028, 2290661394, 2416832540,
  1336762016, 1754252060, 3520065937, 3014181293, 791618072, 3188594551, 3933548030, 2332172193,
  3852520463, 3043980520, 413987798, 3465142937, 3030929376, 4245938359, 2093235073, 3534596313,
  375366246, 2157278981, 2479649556, 555357303, 3870105701, 2008414854, 3344188149, 4221384143,
  3956125452, 2067696032, 3594591187, 2921233993, 2428461, 544322398, 577241275, 1471733935,
  610547355, 4027169054, 1432588573, 1507829418, 2025931657, 3646575487, 545086370, 48609733,
  2200306550, 1653985193, 298326376, 1316178497, 3007786442, 2064951626, 458293330, 2589141269,
  3591329599, 3164325604, 727753846, 2179363840, 146436021, 1461446943, 4069977195, 705550613,
  3059967265, 3887724982, 4281599278, 3313849956, 1404054877, 2845806497, 146425753, 1854211946
]

/-- Initial second S-box of Blowfish (hex digits of pi). -/
def blowfishS1 : List Nat := [
  1266315497, 3048417604, 3681880366, 3289982499, 2909710000, 1235738493, 2632868024, 2414719590,
  3970600049, 1771706367, 1449415276, 3266420449, 422970021, 1963543593, 2690192192, 3826793022,
  1062508698, 1531092325, 1804592342, 2583117782, 2714934279, 4024971509, 1294809318, 4028980673,
  1289560198, 2221992742, 1669523910, 35572830, 157838143, 1052438473, 1016535060, 1802137761,
  1753167236, 1386275462, 3080475397, 2857371447, 1040679964, 2145300060, 2390574316, 1461121720,
  2956646967, 4031777805, 4028374788, 33600511, 2920084762, 1018524850, 629373528, 3691585981,
  3515945977, 2091462646, 2486323059, 586499841, 988145025, 935516892, 3367335476, 2599673255,
  2839830854, 265290510, 3972581182, 2759138881, 3795373465, 1005194799, 847297441, 406762289,
  1314163512, 1332590856, 1866599683, 4127851711, 750260880, 613907577, 1450815602, 3165620655,
  3734664991, 3650291728, 3012275730, 3704569646, 1427272223, 778793252, 1343938022, 2676280711,
  2052605720, 1946737175, 3164576444, 3914038668, 3967478842, 3682934266, 1661551462, 3294938066,
  4011595847, 840292616, 3712170807, 616741398, 312560963, 711312465, 1351876610, 322626781,
  1910503582, 271666773, 2175563734, 1594956187, 70604529, 3617834859, 1007753275, 1495573769,
  4069517037, 2549218298, 2663038764, 504708206, 2263041392, 3941167025, 2249088522, 1514023603,
  1998579484, 1312622330, 694541497, 2582060303, 2151582166, 1382467621, 776784248, 2618340202,
  3323268794, 2497899128, 2784771155, 503983604, 4076293799, 907881277, 423175695, 432175456,
  1378068232, 4145222326, 3954048622, 3938656102, 3820766613, 2793130115, 2977904593, 26017576,
  3274890735, 3194772133, 1700274565, 1756076034, 4006520079, 3677328699, 720338349, 1533947780,
  354530856, 688349552, 3973924725, 1637815568, 332179504, 3949051286, 53804574, 2852348879,
  3044236432, 1282449977, 3583942155, 3416972820, 4006381244, 1617046695, 2628476075, 3002303598,
  1686838959, 431878346, 2686675385, 1700445008, 1080580658, 1009431731, 832498133, 3223435511,
  2605976345, 2271191193, 2516031870, 1648197032, 4164389018, 2548247927, 300782431, 375919233,
  238389289, 3353747414, 2531188641, 2019080857, 1475708069, 455242339, 2609103871, 448939670,
  3451063019, 1395535956, 2413381860, 1841049896, 1491858159, 885456874, 4264095073, 4001119347,
  1565136089, 3898914787, 1108368660, 540939232, 1173283510, 2745871338, 3681308437, 4207628240,
  3343053890, 4016749493, 1699691293, 1103962373, 3625875870, 2256883143, 3830138730, 1031889488,
  3479347698, 1535977030, 4236805024, 3251091107, 2132092099, 1774941330, 1199868427, 1452454533,
  157007616, 2904115357, 342012276, 595725824, 1480756522, 206960106, 497939518, 591360097,
  863170706, 2375253569, 3596610801, 1814182875, 2094937945, 3421402208, 1082520231, 3463918190,
  2785509508, 435703966, 3908032597, 1641649973, 2842273706, 3305899714, 1510255612, 2148256476,
  2655287854, 3276092548, 4258621189, 236887753, 3681803219, 274041037, 1734335097, 3815195456,
  3317970021, 1899903192, 1026095262, 4050517792, 356393447, 2410691914, 3873677099, 3682840055
]

/-- Initial third S-box of Blowfish (hex digits of pi). -/
def blowfishS2 : List Nat := [
  3913112168, 2491498743, 4132185628, 2489919796, 1091903735, 1979897079, 3170134830, 3567386728,
  3557303409, 857797738, 1136121015, 1342202287, 507115054, 2535736646, 337727348, 3213592640,
  1301675037, 2528481711, 1895095763, 1721773893, 3216771564, 62756741, 2142006736, 835421444,
  2531993523, 1442658625, 3659876326, 2882144922, 676362277, 1392781812, 170690266, 3921047035,
  1759253602, 3611846912, 1745797284, 664899054, 1329594018, 3901205900, 3045908486, 2062866102,
  2865634940, 3543621612, 3464012697, 1080764994, 553557557, 3656615353, 3996768171, 991055499,
  499776247, 1265440854, 648242737, 3940784050, 980351604, 3713745714, 1749149687, 3396870395,
  4211799374, 3640570775, 1161844396, 3125318951, 1431517754, 545492359, 4268468663, 3499529547,
  1437099964, 2702547544, 3433638243, 2581715763, 2787789398, 1060185593, 1593081372, 2418618748,
  4260947970, 69676912, 2159744348, 86519011, 2512459080, 3838209314, 1220612927, 3339683548,
  133810670, 1090789135, 1078426020, 1569222167, 845107691, 3583754449, 4072456591, 1091646820,
  628848692, 1613405280, 3757631651, 526609435, 236106946, 48312990, 2942717905, 3402727701,
  1797494240, 859738849, 992217954, 4005476642, 2243076622, 3870952857, 3732016268, 765654824,
  3490871365, 2511836413, 1685915746, 3888969200, 1414112111, 2273134842, 3281911079, 4080962846,
  172450625, 2569994100, 980381355, 4109958455, 2819808352, 2716589560, 2568741196, 3681446669,
  3329971472, 1835478071, 660984891, 3704678404, 4045999559, 3422617507, 3040415634, 1762651403,
  1719377915, 3470491036, 2693910283, 3642056355, 3138596744, 1364962596, 2073328063, 1983633131,
  926494387, 3423689081, 2150032023, 4096667949, 1749200295, 3328846651, 309677260, 2016342300,
  1779581495, 3079819751, 111262694, 1274766160, 443224088, 298511866, 1025883608, 3806446537,
  1145181785, 168956806, 3641502830, 3584813610, 1689216846, 3666258015, 3200248200, 1692713982,
  2646376535, 4042768518, 1618508792, 1610833997, 3523052358, 4130873264, 2001055236, 3610705100,
  2202168115, 4028541809, 2961195399, 1006657119, 2006996926, 3186142756, 1430667929, 3210227297,
  1314452623, 4074634658, 4101304120, 2273951170, 1399257539, 3367210612, 3027628629, 1190975929,
  2062231137, 2333990788, 2221543033, 2438960610, 1181637006, 548689776, 2362791313, 3372408396,
  3104550113, 3145860560, 296247880, 1970579870, 3078560182, 3769228297, 1714227617, 3291629107,
  3898220290, 166772364, 1251581989, 493813264, 448347421, 195405023, 2709975567, 677966185,
  3703036547, 1463355134, 2715995803, 1338867538, 1343315457, 2802222074, 2684532164, 233230375,
  2599980071, 2000651841, 3277868038, 1638401717, 4028070440, 3237316320, 6314154, 819756386,
  300326615, 590932579, 1405279636, 3267499572, 3150704214, 2428286686, 3959192993, 3461946742,
  1862657033, 1266418056, 963775037, 2089974820, 2263052895, 1917689273, 448879540, 3550394620,
  3981727096, 150775221, 3627908307, 1303187396, 508620638, 2975983352, 2726630617, 1817252668,
  1876281319, 1457606340, 908771278, 3720792119, 3617206836, 2455994898, 1729034894, 1080033504
]

/-- Initial fourth S-box of Blowfish (hex digits of pi). -/
def blowfishS3 : List Nat := [
  976866871, 3556439503, 2881648439, 1522871579, 1555064734, 1336096578, 3548522304, 2579274686,
  3574697629, 3205460757, 3593280638, 3338716283, 3079412587, 564236357, 2993598910, 1781952180,
  1464380207, 3163844217, 3332601554, 1699332808, 1393555694, 1183702653, 3581086237, 1288719814,
  691649499, 2847557200, 2895455976, 3193889540, 2717570544, 1781354906, 1676643554, 2592534050,
  3230253752, 1126444790, 2770207658, 2633158820, 2210423226, 2615765581, 2414155088, 3127139286,
  673620729, 2805611233, 1269405062, 4015350505, 3341807571, 4149409754, 1057255273, 2012875353,
  2162469141, 2276492801, 2601117357, 993977747, 3918593370, 2654263191, 753973209, 36408145,
  2530585658, 25011837, 3520020182, 2088578344, 530523599, 2918365339, 1524020338, 1518925132,
  3760827505, 3759777254, 1202760957, 3985898139, 3906192525, 674977740, 4174734889, 2031300136,
  2019492241, 3983892565, 4153806404, 3822280332, 352677332, 2297720250, 60907813, 90501309,
  3286998549, 1016092578, 2535922412, 2839152426, 457141659, 509813237, 4120667899, 652014361,
  1966332200, 2975202805, 55981186, 2327461051, 676427537, 3255491064, 2882294119, 3433927263,
  1307055953, 942726286, 933058658, 2468411793, 3933900994, 4215176142, 1361170020, 2001714738,
  2830558078, 3274259782, 1222529897, 1679025792, 2729314320, 3714953764, 1770335741, 151462246,
  3013232138, 1682292957, 1483529935, 471910574, 1539241949, 458788160, 3436315007, 1807016891,
  3718408830, 978976581, 1043663428, 3165965781, 1927990952, 4200891579, 2372276910, 3208408903,
  3533431907, 1412390302, 2931980059, 4132332400, 1947078029, 3881505623, 4168226417, 2941484381,
  1077988104, 1320477388, 886195818, 18198404, 3786409000, 2509781533, 112762804, 3463356488,
  1866414978, 891333506, 18488651, 661792760, 1628790961, 3885187036, 3141171499, 876946877,
  2693282273, 1372485963, 791857591, 2686433993, 3759982718, 3167212022, 3472953795, 2716379847,
  445679433, 3561995674, 3504004811, 3574258232, 54117162, 3331405415, 2381918588, 3769707343,
  4154350007, 1140177722, 4074052095, 668550556, 3214352940, 367459370, 261225585, 2610173221,
  4209349473, 3468074219, 3265815641, 314222801, 3066103646, 3808782860, 282218597, 3406013506,
  3773591054, 379116347, 1285071038, 846784868, 2669647154, 3771962079, 3550491691, 2305946142,
  453669953, 1268987020, 3317592352, 3279303384, 3744833421, 2610507566, 3859509063, 266596637,
  3847019092, 517658769, 3462560207, 3443424879, 370717030, 4247526661, 2224018117, 4143653529,
  4112773975, 2788324899, 2477274417, 1456262402, 2901442914, 1517677493, 1846949527, 2295493580,
  3734397586, 2176403920, 1280348187, 1908823572, 3871786941, 846861322, 1172426758, 3287448474,
  3383383037, 1655181056, 3139813346, 901632758, 1897031941, 2986607138, 3066810236, 3447102507,
  1393639104, 373351379, 950779232, 625454576, 3124240540, 4148612726, 2007998917, 544563296,
  2244738638, 2330496472, 2058025392, 1291430526, 424198748, 50039436, 29584100, 3605783033,
  2429876329, 2791104160, 1057563949, 3255363231, 3075367218, 3463963227, 1469046755, 985887462
]


/-- Blowfish cipher state: the 18 P subkeys and the four 256-entry S-boxes. -/
structure BlowfishState where
  p : List Nat
  s0 : List Nat
  s1 : List Nat
  s2 : List Nat
  s3 : List Nat
deriving DecidableEq, Repr

/-- Fresh Blowfish state (`Blowfish::bc_init_state`). -/
def bcInitState : BlowfishState :=
  ⟨blowfishP, blowfishS0, blowfishS1, blowfishS2, blowfishS3⟩

/-- Blowfish round function: S-box substitutions combined with wrapping adds and xor. -/
def bfF (st : BlowfishState) (x : Nat) : Nat :=
  ((((st.s0.getD (x / 16777216 % 256) 0 + st.s1.getD (x / 65536 % 256) 0) % 4294967296)
      ^^^ st.s2.getD (x / 256 % 256) 0) + st.s3.getD (x % 256) 0) % 4294967296

/-- One pair of Feistel rounds (`l ^= p[i]; r ^= F(l); r ^= p[i+1]; l ^= F(r)`). -/
def bfRoundPair (st : BlowfishState) (lr : Nat × Nat) (i : Nat) : Nat × Nat :=
  let l := lr.1 ^^^ st.p.getD i 0
  let r := lr.2 ^^^ bfF st l ^^^ st.p.getD (i + 1) 0
  (l ^^^ bfF st r, r)

/-- Blowfish block encryption (`bc_encrypt`): 16 rounds, final swap with P[16], P[17]. -/
def bfEncrypt (st : BlowfishState) (l r : Nat) : Nat × Nat :=
  let lr := List.foldl (bfRoundPair st) (l, r) [0, 2, 4, 6, 8, 10, 12, 14]
  (lr.2 ^^^ st.p.getD 17 0, lr.1 ^^^ st.p.getD 16 0)

/-- Next big-endian 32-bit word from a byte buffer, wrapping around its end
(`next_u32_wrap` of the blowfish crate). -/
def nextU32Wrap (data : List Nat) (pos : Nat) : Nat :=
  ((data.getD (pos % data.length) 0 * 256 + data.getD ((pos + 1) % data.length) 0) * 256 +
    data.getD ((pos + 2) % data.length) 0) * 256 + data.getD ((pos + 3) % data.length) 0

/-- State threaded through a key expansion: cipher state, the running (l, r) pair and
the salt position. -/
structure EKState where
  bf : BlowfishState
  l : Nat
  r : Nat
  spos : Nat
deriving DecidableEq, Repr

/-- One encryption step of a key expansion; with a salt (`salted_expand_key`) the running
pair is first xored with the next two salt words. -/
def ekEncryptStep (salt : Option (List Nat)) (s : EKState) : EKState :=
  match salt with
  | none =>
      let lr := bfEncrypt s.bf s.l s.r
      ⟨s.bf, lr.1, lr.2, s.spos⟩
  | some sb =>
      let l2 := s.l ^^^ nextU32Wrap sb s.spos
      let r2 := s.r ^^^ nextU32Wrap sb (s.spos + 4)
      let lr := bfEncrypt s.bf l2 r2
      ⟨s.bf, lr.1, lr.2, s.spos + 8⟩

/-- Writes the freshly encrypted pair into P at positions i, i+1. -/
def writeP (bf : BlowfishState) (i l r : Nat) : BlowfishState :=
  { bf with p := (bf.p.set i l).set (i + 1) r }

/-- Writes the freshly encrypted pair into the first S-box. -/
def writeS0 (bf : BlowfishState) (i l r : Nat) : BlowfishState :=
  { bf with s0 := (bf.s0.set i l).set (i + 1) r }

/-- Writes the freshly encrypted pair into the second S-box. -/
def writeS1 (bf : BlowfishState) (i l r : Nat) : BlowfishState :=
  { bf with s1 := (bf.s1.set i l).set (i + 1) r }

/-- Writes the freshly encrypted pair into the third S-box. -/
def writeS2 (bf : BlowfishState) (i l r : Nat) : BlowfishState :=
  { bf with s2 := (bf.s2.set i l).set (i + 1) r }

/-- Writes the freshly encrypted pair into the fourth S-box. -/
def writeS3 (bf : BlowfishState) (i l r : Nat) : BlowfishState :=
  { bf with s3 := (bf.s3.set i l).set (i + 1) r }

/-- Fills a table region: for each even index, encrypt the running pair and store it. -/
def fillPhase (salt : Option (List Nat))
    (write : BlowfishState → Nat → Nat → Nat → BlowfishState)
    (idxs : List Nat) (s : EKState) : EKState :=
  idxs.foldl (fun s i =>
    let s2 := ekEncryptStep salt s
    ⟨write s2.bf i s2.l s2.r, s2.l, s2.r, s2.spos⟩) s

/-- Key expansion shared by `bc_expand_key` (no salt) and `salted_expand_key` (with salt):
xor the P-array with the cyclic key words, then refill P and the four S-boxes. -/
def expandKeyGeneric (salt : Option (List Nat)) (key : List Nat)
    (bf : BlowfishState) : BlowfishState :=
  let bf1 := { bf with p := (List.range 18).map (fun i => bf.p.getD i 0 ^^^ nextU32Wrap key (4 * i)) }
  let e1 := fillPhase salt writeP ((List.range 9).map (2 * ·)) ⟨bf1, 0, 0, 0⟩
  let e2 := fillPhase salt writeS0 ((List.range 128).map (2 * ·)) e1
  let e3 := fillPhase salt writeS1 ((List.range 128).map (2 * ·)) e2
  let e4 := fillPhase salt writeS2 ((List.range 128).map (2 * ·)) e3
  let e5 := fillPhase salt writeS3 ((List.range 128).map (2 * ·)) e4
  e5.bf

/-- The bcrypt EksBlowfish setup: one salted expansion, then 2^cost paired expansions
with the key and with the salt. -/
def bcryptSetup (cost : Nat) (salt key : List Nat) : BlowfishState :=
  Nat.repeat (fun bf => expandKeyGeneric none salt (expandKeyGeneric none key bf))
    (2 ^ cost) (expandKeyGeneric (some salt) key bcInitState)

/-- Raw bcrypt (the `bcrypt` crate's low-level function): 24 output bytes obtained by
encrypting "OrpheanBeholderScryDoubt" 64 times with the set-up state. -/
def bcryptRaw (cost : Nat) (salt key : List Nat) : List Nat :=
  let st := bcryptSetup cost salt key
  let enc64 := fun (lr : Nat × Nat) => Nat.repeat (fun q => bfEncrypt st q.1 q.2) 64 lr
  let p1 := enc64 (0x4f727068, 0x65616e42)
  let p2 := enc64 (0x65686f6c, 0x64657253)
  let p3 := enc64 (0x63727944, 0x6f756274)
  wordToBytes p1.1 ++ wordToBytes p1.2 ++ wordToBytes p2.1 ++ wordToBytes p2.2 ++
  wordToBytes p3.1 ++ wordToBytes p3.2

/-! ## Key derivation and auth verifier (`src/crypto/auth.rs`) -/

/-- Derivation of the user passphrase key (`derive_passkey`). For `Bcrypt` the passphrase
is SHA-256 hashed, the salt must convert to a 16-byte array (otherwise the
`context("salt length")` failure, the spec's InvalidInput), then raw bcrypt with cost 8
runs and the first 16 output bytes form an AES-128 key. For `Argon2id` the function
always fails with `bail!("not implemented: Argon2id")`. -/
def derive_passkey (kdf_version : KdfVersion) (passphrase : String) (salt : List Nat) :
    Except Err Key :=
  match kdf_version with
  | .Bcrypt =>
      let hashed := sha256 (utf8Bytes passphrase)
      if salt.length = 16 then
        .ok (.Aes128 ((bcryptRaw 8 salt hashed).take 16))
      else
        .error (.invalidInput "salt length")
  | .Argon2id => .error (.notImplemented "Argon2id")

/-- Auth verifier (`encode_auth_verifier`): SHA-256 of the raw key bytes, wrapped as a
URL-safe base64 blob. -/
def encode_auth_verifier (passkey : Key) : Base64Url :=
  ⟨sha256 passkey.bytes⟩

/-- Modelled from the spec: `build_auth_verifier` (imported by `src/session.rs` from
`crypto::auth` but not present in the `auth.rs` under `src/`): derive the key, then
compute the auth verifier from it — the composition the spec describes in login steps
2 and 3 and the one `test_build_auth_verifier` exercises. -/
def build_auth_verifier (kdf_version : KdfVersion) (passphrase : String) (salt : List Nat) :
    Except Err Base64Url :=
  (derive_passkey kdf_version passphrase salt).map encode_auth_verifier

/-! ## Paginated stream (`Client::stream`, `src/client.rs`)

The stream is `futures::stream::try_unfold` applied to a closure that pops buffered
entities and, when the buffer is empty, issues
`GET ?start=<next_start>&count=1000&reverse=false`, ends on an empty page, and otherwise
records the page's last entity id as the next cursor. The remote pages are modelled as
the list of responses the server returns to the successive fetches (the spec's fake
server); an exhausted response list behaves like an empty page. Entities expose their
id through an explicit `eid` function (the `Entity` trait's `id`).
-/

/-- Fixed batch size requested for every page (`STREAM_BATCH_SIZE`). -/
def STREAM_BATCH_SIZE : Nat := 1000

/-- Query parameters of one page fetch: `start`, `count`, `reverse`. -/
structure FetchReq where
  start : String
  count : Nat
  reverse : Bool
deriving DecidableEq, Repr

/-- Mutable state of the unfold closure (`StreamState<T>`): the buffered entities of the
current page and the pagination cursor. -/
structure StreamState (E : Type) where
  buffer : List E
  next_start : String
deriving DecidableEq, Repr

deriving instance DecidableEq for Except

/-- Driver state of `try_unfold`: the closure state while the stream is live, `none` once
the stream terminated (end of pages or error), plus the responses the server has not yet
served. -/
structure TryUnfold (E : Type) where
  inner : Option (StreamState E)
  server : List (Except Err (List E))
deriving DecidableEq, Repr

/-- Result of polling the stream once. -/
inductive Poll (E : Type) where
  | item (x : E)
  | errItem (e : Err)
  | done
deriving DecidableEq, Repr

/-- Last entity id of a page, or the given cursor when the page is empty (the closure
reads `buffer.back()` before popping; the fallback is never used on non-empty pages). -/
def pageLastId {E : Type} (eid : E → String) (c : String) (p : List E) : String :=
  match p.getLast? with
  | some o => eid o
  | none => c

/-- One poll of the try-unfolded stream. Returns the polled outcome, the successor
driver state and the fetch request issued during this poll, if any. A terminated stream
(`inner = none`) yields `done` without touching the server. The live closure pops the
buffer; on an empty buffer it fetches the next page (`start` = cursor, `count` = 1000,
`reverse` = false): a failed fetch yields the error and terminates, an empty page
terminates, and a non-empty page becomes the new buffer with the cursor advanced to its
last entity id, its first entity being popped immediately. -/
def pollStream {E : Type} (eid : E → String) (st : TryUnfold E) :
    Poll E × TryUnfold E × Option FetchReq :=
  match st.inner with
  | none => (.done, st, none)
  | some s =>
    match s.buffer with
    | e :: rest => (.item e, ⟨some ⟨rest, s.next_start⟩, st.server⟩, none)
    | [] =>
      let req : FetchReq := ⟨s.next_start, STREAM_BATCH_SIZE, false⟩
      match st.server with
      | [] => (.done, ⟨none, []⟩, some req)
      | resp :: srv =>
        match resp with
        | .error e => (.errItem e, ⟨none, srv⟩, some req)
        | .ok [] => (.done, ⟨none, srv⟩, some req)
        | .ok (e :: es) =>
            (.item e, ⟨some ⟨es, pageLastId eid s.next_start (e :: es)⟩, srv⟩, some req)

/-- Runs up to `fuel` polls, collecting the yielded items (entities and error items, in
order), the fetch requests issued, and the final driver state. Collection stops at the
first `done` poll. -/
def runStream {E : Type} (eid : E → String) : Nat → TryUnfold E →
    List (Except Err E) × List FetchReq × TryUnfold E
  | 0, st => ([], [], st)
  | n + 1, st =>
    match pollStream eid st with
    | (.item x, st2, f) =>
        let r := runStream eid n st2
        (.ok x :: r.1, f.toList ++ r.2.1, r.2.2)
    | (.errItem e, st2, f) =>
        let r := runStream eid n st2
        (.error e :: r.1, f.toList ++ r.2.1, r.2.2)
    | (.done, st2, f) => ([], f.toList, st2)

/-- Initial driver state of `Client::stream`: empty buffer and the sentinel cursor
`"------------"`, which sorts before every real generated id. -/
def streamInit {E : Type} (server : List (Except Err (List E))) : TryUnfold E :=
  ⟨some ⟨[], "------------"⟩, server⟩

/-! ## Session lifecycle (`src/session.rs`) -/

/-- Response of the salt service (`SaltServiceResponse`): per-user KDF scheme and salt. -/
structure SaltServiceResponse where
  kdf_version : KdfVersion
  salt : Base64Url
deriving DecidableEq, Repr

/-- Response of the session service (`SessionServiceResponse`): user id, access token and
the (possibly empty) challenge list; challenge payloads are opaque here. -/
structure SessionServiceResponse where
  user : String
  access_token : Base64Url
  challenges : List String
deriving DecidableEq, Repr

/-- User record response (`UserResponse`), exposing `auth.sessions`: the identifier of
the user's session collection (the sessions list id). -/
structure UserResponse where
  sessions : String
deriving DecidableEq, Repr

/-- User session (`Session`): user id and access token; exists only after a successful
login. -/
structure Session where
  user_id : String
  access_token : Base64Url
deriving DecidableEq, Repr

/-- Requests the session code issues, with the fields that identify them: the
unauthenticated salt GET, the session-creation POST, the authenticated user-record GET
and the session DELETE. -/
inductive Request where
  | getSalt (mailAddress : String)
  | createSession (mailAddress : String) (authVerifier : Base64Url) (clientIdentifier : String)
  | getUser (userId : String) (accessToken : Base64Url)
  | deleteSession (path : String) (accessToken : Base64Url)
deriving DecidableEq, Repr

/-- Client identifier sent in the session-creation request
(`env!("CARGO_PKG_NAME")` of this crate). -/
def clientIdentifier : String := "tatutanatata"

/-- Login (`Session::login`) as a function of the two server responses, returning the
requests issued in order and the outcome. The salt GET always happens; if key derivation
fails its error propagates (`context("build auth verifier")`); otherwise the
session-creation POST happens, and a non-empty challenge list aborts with
`bail!("not implemented: challenges")` before any session value exists. -/
def login (username password : String) (saltResp : SaltServiceResponse)
    (sessionResp : SessionServiceResponse) : List Request × Except Err Session :=
  match build_auth_verifier saltResp.kdf_version password saltResp.salt.bytes with
  | .error e => ([.getSalt username], .error e)
  | .ok verifier =>
      ([.getSalt username, .createSession username verifier clientIdentifier],
       if sessionResp.challenges = [] then
         .ok ⟨sessionResp.user, sessionResp.access_token⟩
       else
         .error (.notImplemented "challenges"))

/-- Length of the addressing identifier cut off the access token
(`GENERATE_ID_BYTES_LENGTH`). -/
def GENERATE_ID_BYTES_LENGTH : Nat := 9

/-- Session element id (`session_element_id`): SHA-256 of the access token's raw bytes
with the first 9 bytes stripped. The Rust slice `[9..]` panics when the token has fewer
than 9 bytes; that abnormal outcome is `none`. -/
def session_element_id (access_token : Base64Url) : Option Base64Url :=
  if GENERATE_ID_BYTES_LENGTH ≤ access_token.bytes.length then
    some ⟨sha256 (access_token.bytes.drop GENERATE_ID_BYTES_LENGTH)⟩
  else
    none

/-- Session list id (`session_list_id`): the first 9 raw bytes of the access token. The
function exists in the source but its call in `logout` is commented out (dead code).
The Rust slice `[..9]` panics when the token has fewer than 9 bytes. -/
def session_list_id (access_token : Base64Url) : Option Base64Url :=
  if GENERATE_ID_BYTES_LENGTH ≤ access_token.bytes.length then
    some ⟨access_token.bytes.take GENERATE_ID_BYTES_LENGTH⟩
  else
    none

/-- Logout (`Session::logout`) as a function of the fetched user record: the requests
issued in order, or `none` when deriving the session element id panics. The DELETE path
is `session/{resp.auth.sessions}/{session_element_id(access_token)}`; the commented-out
list id appears nowhere in it. -/
def logout (s : Session) (userResp : UserResponse) : Option (List Request) :=
  match session_element_id s.access_token with
  | none => none
  | some elemId =>
      some [.getUser s.user_id s.access_token,
            .deleteSession ("session/" ++ userResp.sessions ++ "/" ++ elemId.render)
              s.access_token]

/-! ## Theorems -/

/-- Polling a terminated stream yields `done`, leaves the driver state unchanged and
issues no fetch. -/
theorem pollStream_terminal {E : Type} (eid : E → String) (st : TryUnfold E)
    (h : st.inner = none) : pollStream eid st = (.done, st, none) := by
  cases st with
  | mk inner server => cases h; rfl

/-- Running a terminated stream yields nothing, for any amount of fuel. -/
theorem runStream_none {E : Type} (eid : E → String) (k : Nat)
    (srv : List (Except Err (List E))) :
    runStream eid k ⟨none, srv⟩ = ([], [], ⟨none, srv⟩) := by
  cases k <;> simp [runStream, pollStream]

/-- Buffered entities are emitted one per poll, without touching the server. -/
theorem runStream_drain {E : Type} (eid : E → String) (buf : List E) (c : String)
    (srv : List (Except Err (List E))) (n : Nat) :
    runStream eid (buf.length + n) ⟨some ⟨buf, c⟩, srv⟩ =
      (buf.map .ok ++ (runStream eid n ⟨some ⟨[], c⟩, srv⟩).1,
       (runStream eid n ⟨some ⟨[], c⟩, srv⟩).2) := by
  induction buf with
  | nil => simp
  | cons e rest ih =>
      rw [show (e :: rest).length + n = (rest.length + n) + 1 from by simp; omega]
      simp [runStream, pollStream, ih]

/-- Core pagination lemma: for a server answering with non-empty pages `ps`, then an
empty page, then anything, the stream emits exactly the concatenation of `ps`, issues
one fetch per page plus the final empty-page fetch — each start being the previous
page's last entity id, beginning from the given cursor — and terminates with the
left-over responses unserved. -/
theorem runStream_pages {E : Type} (eid : E → String) (ps : List (List E))
    (hne : ∀ p ∈ ps, p ≠ []) (c : String) (rest : List (Except Err (List E))) (extra : Nat) :
    runStream eid (ps.flatten.length + 1 + extra) ⟨some ⟨[], c⟩, ps.map .ok ++ .ok [] :: rest⟩ =
      (ps.flatten.map .ok,
       (List.scanl (pageLastId eid) c ps).map (fun s => ⟨s, STREAM_BATCH_SIZE, false⟩),
       ⟨none, rest⟩) := by
  induction ps generalizing c with
  | nil =>
      rw [show (([] : List (List E)).flatten.length + 1 + extra) = extra + 1 from by simp; omega]
      simp [runStream, pollStream, runStream_none]
  | cons p ps ih =>
      match p, hne p (List.mem_cons_self p ps) with
      | e :: es, _ =>
        rw [show ((e :: es) :: ps).flatten.length + 1 + extra =
              (es.length + (ps.flatten.length + 1 + extra)) + 1 from by simp; omega]
        have hne2 : ∀ q ∈ ps, q ≠ [] := fun q hq => hne q (List.mem_cons_of_mem _ hq)
        simp only [List.map_cons, List.cons_append, runStream, pollStream]
        simp only [runStream_drain, ih hne2]
        simp [List.scanl]

/-- C2: for every sequence of server page responses (non-empty pages `ps`, then an empty
page, then anything), the stream yields exactly the concatenation of the pages' entities
in order and then ends: the final state is terminal with the responses after the empty
page unserved, and exactly one fetch per page plus the terminating empty-page fetch is
issued — in particular a non-empty page smaller than the batch size does not terminate
the stream, the next fetch follows once its buffer is drained, and an empty first page
(`ps = []`) gives an empty stream. The extra fuel shows nothing is yielded after the
empty page. -/
theorem stream_yields_page_concatenation {E : Type} (eid : E → String) (ps : List (List E))
    (hne : ∀ p ∈ ps, p ≠ []) (rest : List (Except Err (List E))) (extra : Nat) :
    (runStream eid (ps.flatten.length + 1 + extra)
        (streamInit (ps.map .ok ++ .ok [] :: rest))).1 = ps.flatten.map .ok ∧
    (runStream eid (ps.flatten.length + 1 + extra)
        (streamInit (ps.map .ok ++ .ok [] :: rest))).2.1.length = ps.length + 1 ∧
    (runStream eid (ps.flatten.length + 1 + extra)
        (streamInit (ps.map .ok ++ .ok [] :: rest))).2.2 = ⟨none, rest⟩ := by
  have h := runStream_pages eid ps hne "------------" rest extra
  rw [streamInit, h]
  simp [List.length_scanl]

/-- C2 witness: the spec's fake server with pages [A, B, C], [D, E], [] yields
A, B, C, D, E and ends. -/
theorem stream_yields_page_concatenation_witness :
    (runStream (fun s => s) 6
        (streamInit ([[ "A", "B", "C" ], [ "D", "E" ]].map .ok ++ .ok [] :: []))).1 =
      [.ok "A", .ok "B", .ok "C", .ok "D", .ok "E"] ∧
    (runStream (fun s => s) 6
        (streamInit ([[ "A", "B", "C" ], [ "D", "E" ]].map .ok ++ .ok [] :: []))).2.1.length = 3 ∧
    (runStream (fun s => s) 6
        (streamInit ([[ "A", "B", "C" ], [ "D", "E" ]].map .ok ++ .ok [] :: []))).2.2 =
      ⟨none, []⟩ :=
  stream_yields_page_concatenation (fun s => s) [["A", "B", "C"], ["D", "E"]]
    (by decide) [] 0

/-- Companion to `runStream_pages` for a failing fetch: the pages before the failure are
emitted, then exactly the one error item; the stream terminates with the responses after
the failure unserved. -/
theorem runStream_pages_error {E : Type} (eid : E → String) (ps : List (List E))
    (hne : ∀ p ∈ ps, p ≠ []) (err : Err) (c : String) (rest : List (Except Err (List E)))
    (extra : Nat) :
    runStream eid (ps.flatten.length + 1 + extra) ⟨some ⟨[], c⟩, ps.map .ok ++ .error err :: rest⟩ =
      (ps.flatten.map .ok ++ [.error err],
       (List.scanl (pageLastId eid) c ps).map (fun s => ⟨s, STREAM_BATCH_SIZE, false⟩),
       ⟨none, rest⟩) := by
  induction ps generalizing c with
  | nil =>
      rw [show (([] : List (List E)).flatten.length + 1 + extra) = extra + 1 from by
            simp; omega]
      simp [runStream, pollStream, runStream_none]
  | cons p ps ih =>
      match p, hne p (List.mem_cons_self p ps) with
      | e :: es, _ =>
        rw [show ((e :: es) :: ps).flatten.length + 1 + extra =
              (es.length + (ps.flatten.length + 1 + extra)) + 1 from by simp; omega]
        have hne2 : ∀ q ∈ ps, q ≠ [] := fun q hq => hne q (List.mem_cons_of_mem _ hq)
        simp only [List.map_cons, List.cons_append, runStream, pollStream]
        simp only [runStream_drain, ih hne2]
        simp [List.scanl]

/-- C3: a failed page fetch surfaces as exactly one error item, at the position right
after the entities of the pages served before it, and nothing follows for any amount of
extra fuel; the resulting driver state is terminal with the remaining responses
unserved, and polling any terminal stream again yields no item, no state change and no
fetch. -/
theorem stream_error_single_and_terminal {E : Type} (eid : E → String) (ps : List (List E))
    (hne : ∀ p ∈ ps, p ≠ []) (err : Err) (rest : List (Except Err (List E))) (extra : Nat) :
    runStream eid (ps.flatten.length + 1 + extra)
        (streamInit (ps.map .ok ++ .error err :: rest)) =
      (ps.flatten.map .ok ++ [.error err],
       (List.scanl (pageLastId eid) "------------" ps).map
         (fun s => ⟨s, STREAM_BATCH_SIZE, false⟩),
       ⟨none, rest⟩) ∧
    (∀ st : TryUnfold E, st.inner = none → pollStream eid st = (.done, st, none)) :=
  ⟨runStream_pages_error eid ps hne err "------------" rest extra,
   fun st h => pollStream_terminal eid st h⟩

/-- C3 witness: a server with page [X], then a failing fetch, then an untouched further
response: the stream yields X then exactly the one error, and the failing response's
successor is never fetched. -/
theorem stream_error_single_and_terminal_witness :
    runStream (fun s => s) 2
        (streamInit ([["X"]].map .ok ++ .error (.transport "fetch next page") ::
          [.ok ["Y"]])) =
      ([.ok "X", .error (.transport "fetch next page")],
       [⟨"------------", STREAM_BATCH_SIZE, false⟩, ⟨"X", STREAM_BATCH_SIZE, false⟩],
       ⟨none, [.ok ["Y"]]⟩) ∧
    (∀ st : TryUnfold String, st.inner = none →
      pollStream (fun s => s) st = (.done, st, none)) :=
  stream_error_single_and_terminal (fun s => s) [["X"]] (by decide)
    (.transport "fetch next page") [.ok ["Y"]] 0

/-- C7 counterexample: a server whose second page's id sorts below the first page's id
makes the third fetch start below the second fetch's start, and no error item (no
ProtocolViolation) is produced — the claimed monotonicity and defensive check do not
exist in the code. -/
theorem stream_cursor_regression_counterexample :
    (runStream (fun s => s) 3 (streamInit [.ok ["b"], .ok ["a"], .ok []])).2.1 =
      [⟨"------------", STREAM_BATCH_SIZE, false⟩, ⟨"b", STREAM_BATCH_SIZE, false⟩,
       ⟨"a", STREAM_BATCH_SIZE, false⟩] ∧
    ("a" : String) < "b" ∧
    (runStream (fun s => s) 3 (streamInit [.ok ["b"], .ok ["a"], .ok []])).1 =
      [.ok "b", .ok "a"] := by
  refine ⟨by decide, ?_, by decide⟩
  rw [String.lt_iff_toList_lt]
  decide

/-- C7 amended: the start of the first fetch is the sentinel cursor and the start of
each later fetch is exactly the last entity id of the previous non-empty page; the code
performs no regression check and raises no error on regression, so the fetch starts are
non-decreasing only when the server's page ids are. -/
theorem stream_cursor_follows_last_page_id {E : Type} (eid : E → String)
    (ps : List (List E)) (hne : ∀ p ∈ ps, p ≠ []) (rest : List (Except Err (List E)))
    (extra : Nat) :
    (runStream eid (ps.flatten.length + 1 + extra)
        (streamInit (ps.map .ok ++ .ok [] :: rest))).2.1 =
      (List.scanl (pageLastId eid) "------------" ps).map
        (fun s => ⟨s, STREAM_BATCH_SIZE, false⟩) := by
  rw [streamInit, runStream_pages eid ps hne "------------" rest extra]

/-- C7 amended witness: with pages [A, B], [C] the fetches start at the sentinel, then
B, then C. -/
theorem stream_cursor_follows_last_page_id_witness :
    (runStream (fun s => s) 4 (streamInit ([["A", "B"], ["C"]].map .ok ++ .ok [] :: []))).2.1 =
      (List.scanl (pageLastId (fun s => s)) "------------" [["A", "B"], ["C"]]).map
        (fun s => ⟨s, STREAM_BATCH_SIZE, false⟩) :=
  stream_cursor_follows_last_page_id (fun s => s) [["A", "B"], ["C"]] (by decide) [] 0

/-- C4: key derivation with the legacy bcrypt scheme and a salt whose length is not 16
bytes fails with the salt-length InvalidInput error and returns no key. -/
theorem derive_passkey_bad_salt_invalid_input (passphrase : String) (salt : List Nat)
    (h : salt.length ≠ 16) :
    derive_passkey .Bcrypt passphrase salt = .error (.invalidInput "salt length") := by
  simp [derive_passkey, h]

/-- C4 witness: a 1-byte salt is rejected. -/
theorem derive_passkey_bad_salt_invalid_input_witness :
    derive_passkey .Bcrypt "password" [0] = .error (.invalidInput "salt length") :=
  derive_passkey_bad_salt_invalid_input "password" [0] (by decide)

/-- C5: key derivation with the modern Argon2id scheme always fails with the
NotImplemented error, for every passphrase and salt — it never returns a key and never
falls back to another scheme. -/
theorem derive_passkey_argon2id_not_implemented (passphrase : String) (salt : List Nat) :
    derive_passkey .Argon2id passphrase salt = .error (.notImplemented "Argon2id") := rfl

/-- C9: key derivation and verifier encoding are deterministic: two calls with equal
scheme, passphrase and salt produce equal verifiers. -/
theorem auth_verifier_deterministic (v1 v2 : KdfVersion) (p1 p2 : String)
    (s1 s2 : List Nat) (hv : v1 = v2) (hp : p1 = p2) (hs : s1 = s2) :
    (derive_passkey v1 p1 s1).map encode_auth_verifier =
      (derive_passkey v2 p2 s2).map encode_auth_verifier := by
  subst hv; subst hp; subst hs; rfl

/-- C9 witness: the determinism theorem applied at the test vector's inputs. -/
theorem auth_verifier_deterministic_witness :
    (derive_passkey .Bcrypt "password"
        [115, 97, 108, 116, 115, 97, 108, 116, 115, 97, 108, 116, 115, 97, 108, 116]).map
      encode_auth_verifier =
    (derive_passkey .Bcrypt "password"
        [115, 97, 108, 116, 115, 97, 108, 116, 115, 97, 108, 116, 115, 97, 108, 116]).map
      encode_auth_verifier :=
  auth_verifier_deterministic .Bcrypt .Bcrypt "password" "password"
    [115, 97, 108, 116, 115, 97, 108, 116, 115, 97, 108, 116, 115, 97, 108, 116]
    [115, 97, 108, 116, 115, 97, 108, 116, 115, 97, 108, 116, 115, 97, 108, 116]
    rfl rfl rfl

/-- C6: when the session-creation response carries a non-empty challenge list (and key
derivation succeeded, so the session-creation request was reachable), login fails with
the NotImplemented("challenges") error, returns no session, and the requests issued are
exactly the salt GET followed by the one session-creation POST — nothing follows the
failure. -/
theorem login_nonempty_challenges_not_implemented (username password : String)
    (saltResp : SaltServiceResponse) (sessionResp : SessionServiceResponse)
    (v : Base64Url)
    (hv : build_auth_verifier saltResp.kdf_version password saltResp.salt.bytes = .ok v)
    (hc : sessionResp.challenges ≠ []) :
    login username password saltResp sessionResp =
      ([.getSalt username, .createSession username v clientIdentifier],
       .error (.notImplemented "challenges")) := by
  simp [login, hv, hc]

/-- C6 witness: a concrete login against a bcrypt salt response and a session response
with one challenge entry fails with NotImplemented("challenges") after exactly the two
requests. -/
theorem login_nonempty_challenges_not_implemented_witness :
    login "user@example.com" "password"
        ⟨.Bcrypt, ⟨[115, 97, 108, 116, 115, 97, 108, 116, 115, 97, 108, 116, 115, 97, 108, 116]⟩⟩
        ⟨"userid", ⟨[]⟩, ["challenge0"]⟩ =
      ([.getSalt "user@example.com",
        .createSession "user@example.com"
          (encode_auth_verifier (.Aes128 ((bcryptRaw 8
            [115, 97, 108, 116, 115, 97, 108, 116, 115, 97, 108, 116, 115, 97, 108, 116]
            (sha256 (utf8Bytes "password"))).take 16)))
          clientIdentifier],
       .error (.notImplemented "challenges")) :=
  login_nonempty_challenges_not_implemented "user@example.com" "password"
    ⟨.Bcrypt, ⟨[115, 97, 108, 116, 115, 97, 108, 116, 115, 97, 108, 116, 115, 97, 108, 116]⟩⟩
    ⟨"userid", ⟨[]⟩, ["challenge0"]⟩
    (encode_auth_verifier (.Aes128 ((bcryptRaw 8
      [115, 97, 108, 116, 115, 97, 108, 116, 115, 97, 108, 116, 115, 97, 108, 116]
      (sha256 (utf8Bytes "password"))).take 16)))
    rfl (by decide)

/-- C8: when the access token has at least the 9 stripped bytes, logout issues the
user-record GET and then the DELETE whose path combines the fetched session collection
id with the element id, the element id being the SHA-256 digest of the access token
bytes with the 9-byte addressing id stripped; the list id — the stripped 9 bytes
themselves — appears nowhere in the DELETE path. -/
theorem logout_delete_uses_hashed_token_element_id (s : Session) (u : UserResponse)
    (h : GENERATE_ID_BYTES_LENGTH ≤ s.access_token.bytes.length) :
    logout s u = some [.getUser s.user_id s.access_token,
      .deleteSession ("session/" ++ u.sessions ++ "/" ++
        Base64Url.render ⟨sha256 (s.access_token.bytes.drop GENERATE_ID_BYTES_LENGTH)⟩)
        s.access_token] ∧
    session_element_id s.access_token =
      some ⟨sha256 (s.access_token.bytes.drop GENERATE_ID_BYTES_LENGTH)⟩ ∧
    session_list_id s.access_token =
      some ⟨s.access_token.bytes.take GENERATE_ID_BYTES_LENGTH⟩ := by
  refine ⟨?_, ?_, ?_⟩ <;> simp [logout, session_element_id, session_list_id, h]

/-- C8 witness: a 10-byte access token: the DELETE path hashes the one byte left after
stripping the 9-byte addressing id. -/
theorem logout_delete_uses_hashed_token_element_id_witness :
    logout ⟨"userid", ⟨[0, 1, 2, 3, 4, 5, 6, 7, 8, 9]⟩⟩ ⟨"SESSLIST"⟩ =
      some [.getUser "userid" ⟨[0, 1, 2, 3, 4, 5, 6, 7, 8, 9]⟩,
        .deleteSession ("session/" ++ "SESSLIST" ++ "/" ++
          Base64Url.render ⟨sha256 ([0, 1, 2, 3, 4, 5, 6, 7, 8, 9].drop GENERATE_ID_BYTES_LENGTH)⟩)
          ⟨[0, 1, 2, 3, 4, 5, 6, 7, 8, 9]⟩] ∧
    session_element_id ⟨[0, 1, 2, 3, 4, 5, 6, 7, 8, 9]⟩ =
      some ⟨sha256 ([0, 1, 2, 3, 4, 5, 6, 7, 8, 9].drop GENERATE_ID_BYTES_LENGTH)⟩ ∧
    session_list_id ⟨[0, 1, 2, 3, 4, 5, 6, 7, 8, 9]⟩ =
      some ⟨[0, 1, 2, 3, 4, 5, 6, 7, 8, 9].take GENERATE_ID_BYTES_LENGTH⟩ :=
  logout_delete_uses_hashed_token_element_id ⟨"userid", ⟨[0, 1, 2, 3, 4, 5, 6, 7, 8, 9]⟩⟩
    ⟨"SESSLIST"⟩ (by decide)

/-- C10: deriving the session element id slices the access token at the fixed 9-byte
addressing length, so a token with fewer than 9 raw bytes makes logout panic (no request
list and no typed error is produced), while a token with at least 9 bytes always lets
logout run to completion: logout is total exactly under that precondition. -/
theorem logout_short_token_panics (s : Session) (u : UserResponse) :
    (s.access_token.bytes.length < GENERATE_ID_BYTES_LENGTH → logout s u = none) ∧
    (GENERATE_ID_BYTES_LENGTH ≤ s.access_token.bytes.length → (logout s u).isSome = true) := by
  constructor
  · intro h
    simp [logout, session_element_id, Nat.not_le.mpr h]
  · intro h
    simp [logout, session_element_id, h]

/-- C10 witness: a 3-byte token panics; a 9-byte token does not. -/
theorem logout_short_token_panics_witness :
    logout ⟨"userid", ⟨[0, 1, 2]⟩⟩ ⟨"SESSLIST"⟩ = none ∧
    (logout ⟨"userid", ⟨[0, 1, 2, 3, 4, 5, 6, 7, 8]⟩⟩ ⟨"SESSLIST"⟩).isSome = true :=
  ⟨(logout_short_token_panics ⟨"userid", ⟨[0, 1, 2]⟩⟩ ⟨"SESSLIST"⟩).1 (by decide),
   (logout_short_token_panics ⟨"userid", ⟨[0, 1, 2, 3, 4, 5, 6, 7, 8]⟩⟩ ⟨"SESSLIST"⟩).2
     (by decide)⟩

end Tatutanatata
